import Mathlib

/-!
Shallow embedding of the nixnet-python frame codec (`nixnet/types.py`),
the session frame write path (`nixnet/_session/frames.py`) and the named
collection (`nixnet/_session/collection.py`).

Python integers are modelled as `Nat` (or `Int` where Python negatives
matter), `bytes` as `List Nat` (each element a byte value), and raising
an exception as returning `Except PyError`.
-/

namespace Nixnet

/-- Equality of `Except` results is decidable when both components are,
so modelled operations can be evaluated on concrete inputs. -/
instance exceptDecEq {ε α : Type} [DecidableEq ε] [DecidableEq α] :
    DecidableEq (Except ε α) := fun x y =>
  match x, y with
  | .ok a, .ok b =>
    if h : a = b then .isTrue (by rw [h])
    else .isFalse (fun hc => by cases hc; exact h rfl)
  | .error a, .error b =>
    if h : a = b then .isTrue (by rw [h])
    else .isFalse (fun hc => by cases hc; exact h rfl)
  | .ok _, .error _ => .isFalse (fun hc => by cases hc)
  | .error _, .ok _ => .isFalse (fun hc => by cases hc)

/-- Wire tag enumeration `nixnet._enums.FrameType`.

Modelled from the spec: the module `nixnet/_enums.py` is not under `src/`.
The spec names exactly nine tags handled by the dispatch table
(CAN_DATA, CAN20_DATA, CANFD_DATA, CANFDBRS_DATA, CAN_REMOTE,
CAN_BUS_ERROR, SPECIAL_DELAY, SPECIAL_LOG_TRIGGER, SPECIAL_START_TRIGGER)
and says unrecognized tags exist; `other n` stands for any tag outside
the nine. -/
inductive FrameType where
  | canData
  | can20Data
  | canfdData
  | canfdbrsData
  | canRemote
  | canBusError
  | specialDelay
  | specialLogTrigger
  | specialStartTrigger
  | other (tag : Nat)
deriving DecidableEq

/-- Python exceptions and driver error codes surfaced by the modelled code. -/
inductive PyError where
  | undefinedFrameId
  | notImplementedError (tag : FrameType)
  | indexError
  | keyError (name : String)
  | typeError
  | assertionError
  | valueError
  | payloadTooLarge
deriving DecidableEq

/-- Constant `_cconsts.NX_FRAME_ID_CAN_IS_EXTENDED`.

Modelled from the spec: `nixnet/_cconsts.py` is not under `src/`; the spec
gives the is-extended flag bit as bit 29, value `0x20000000`. -/
def NX_FRAME_ID_CAN_IS_EXTENDED : Nat := 0x20000000

/-- Constant `_cconsts.NX_FRAME_FLAGS_TRANSMIT_ECHO`.

Modelled from the spec: `nixnet/_cconsts.py` is not under `src/`; the
doctest of `CanFrame.to_raw` in `src/nixnet/types.py` shows echo = True
producing `flags=0x80`, so the transmit-echo flag bit is `0x80`. -/
def NX_FRAME_FLAGS_TRANSMIT_ECHO : Nat := 0x80

/-- `CanIdentifier` from `src/nixnet/types.py`: decoded CAN arbitration id. -/
structure CanIdentifier where
  identifier : Nat
  extended : Bool
deriving DecidableEq

/-- `CanIdentifier._FRAME_ID_MASK` from `src/nixnet/types.py`. -/
def FRAME_ID_MASK : Nat := 0x000003FF

/-- `CanIdentifier._EXTENDED_FRAME_ID_MASK` from `src/nixnet/types.py`. -/
def EXTENDED_FRAME_ID_MASK : Nat := 0x1FFFFFFF

/-- `CanIdentifier.from_raw` from `src/nixnet/types.py`:
parse a raw 32-bit frame identifier. -/
def CanIdentifier.from_raw (raw : Nat) : CanIdentifier :=
  if raw &&& NX_FRAME_ID_CAN_IS_EXTENDED ≠ 0 then
    { identifier := raw &&& EXTENDED_FRAME_ID_MASK, extended := true }
  else
    { identifier := raw &&& FRAME_ID_MASK, extended := false }

/-- `CanIdentifier.__int__` from `src/nixnet/types.py`: convert a
`CanIdentifier` into a raw frame identifier; `_errors.check_for_error`
on `NX_ERR_UNDEFINED_FRAME_ID` raises, modelled as `Except.error`. -/
def CanIdentifier.toInt (c : CanIdentifier) : Except PyError Nat :=
  if c.extended then
    if c.identifier ≠ c.identifier &&& EXTENDED_FRAME_ID_MASK then
      .error .undefinedFrameId
    else
      .ok (c.identifier ||| NX_FRAME_ID_CAN_IS_EXTENDED)
  else
    if c.identifier ≠ c.identifier &&& FRAME_ID_MASK then
      .error .undefinedFrameId
    else
      .ok c.identifier

/-- `RawFrame` from `src/nixnet/types.py` (payload as a list of byte values). -/
structure RawFrame where
  timestamp : Nat
  identifier : Nat
  type : FrameType
  flags : Nat
  info : Nat
  payload : List Nat
deriving DecidableEq

/-- `CanFrame` from `src/nixnet/types.py`. -/
structure CanFrame where
  identifier : CanIdentifier
  echo : Bool
  type : FrameType
  timestamp : Nat
  payload : List Nat
deriving DecidableEq

/-- The `identifier` argument of `CanFrame.__init__` may be an `int` or a
`CanIdentifier`. -/
inductive CanIdArg where
  | id (c : CanIdentifier)
  | int (n : Nat)

/-- `CanFrame.__init__` from `src/nixnet/types.py`: `echo` and `timestamp`
are unconditionally initialized to `False` and `0` (used only for Read). -/
def CanFrame.init (identifier : CanIdArg) (type : FrameType) (payload : List Nat) :
    CanFrame :=
  { identifier :=
      match identifier with
      | .id c => c
      | .int n => { identifier := n, extended := false }
    echo := false
    type := type
    timestamp := 0
    payload := payload }

/-- `CanFrame.from_raw` from `src/nixnet/types.py`. -/
def CanFrame.from_raw (frame : RawFrame) : CanFrame :=
  let can := CanFrame.init (.id (CanIdentifier.from_raw frame.identifier))
    frame.type frame.payload
  { can with
      timestamp := frame.timestamp
      echo := frame.flags &&& NX_FRAME_FLAGS_TRANSMIT_ECHO != 0 }

/-- `CanBusErrorFrame` from `src/nixnet/types.py`. The two enum-valued
fields (`CanCommState`, `CanLastErr` from `nixnet/_enums.py`, not under
`src/`) are modelled by their numeric values. -/
structure CanBusErrorFrame where
  timestamp : Nat
  state : Nat
  tcvr_err : Bool
  bus_err : Nat
  tx_err_count : Nat
  rx_err_count : Nat
deriving DecidableEq

/-- `six.indexbytes(payload, i)`: the byte at index `i`, raising
`IndexError` when out of range. -/
def indexbytes (payload : List Nat) (i : Nat) : Except PyError Nat :=
  match payload.get? i with
  | some b => .ok b
  | none => .error .indexError

/-- `CanBusErrorFrame.from_raw` from `src/nixnet/types.py`: reads payload
bytes 0, 1 (twice: transceiver-error flag and last error), 3 and 4. -/
def CanBusErrorFrame.from_raw (frame : RawFrame) :
    Except PyError CanBusErrorFrame := do
  let state ← indexbytes frame.payload 0
  let tcvrByte ← indexbytes frame.payload 1
  let busErr ← indexbytes frame.payload 1
  let txErrCount ← indexbytes frame.payload 3
  let rxErrCount ← indexbytes frame.payload 4
  .ok { timestamp := frame.timestamp
        state := state
        tcvr_err := tcvrByte != 0
        bus_err := busErr
        tx_err_count := txErrCount
        rx_err_count := rxErrCount }

/-- Python `bytes(list)`: succeeds iff every element is a byte value,
otherwise raises `ValueError`. -/
def pyBytes (l : List Nat) : Except PyError (List Nat) :=
  if l.all (fun b => b < 256) then .ok l else .error .valueError

/-- `CanBusErrorFrame.to_raw` from `src/nixnet/types.py`: payload is
`[state, tcvr_err as 0 or 1, bus_err, tx_err_count, rx_err_count]`. -/
def CanBusErrorFrame.to_raw (f : CanBusErrorFrame) : Except PyError RawFrame :=
  match pyBytes
      [f.state, if f.tcvr_err then 1 else 0, f.bus_err, f.tx_err_count, f.rx_err_count] with
  | .error e => .error e
  | .ok payload =>
    .ok { timestamp := f.timestamp
          identifier := 0
          type := .canBusError
          flags := 0
          info := 0
          payload := payload }

/-- `DelayFrame` from `src/nixnet/types.py`. -/
structure DelayFrame where
  offset : Nat
deriving DecidableEq

/-- `DelayFrame.from_raw` from `src/nixnet/types.py`: the offset rides in
the raw record's timestamp field. -/
def DelayFrame.from_raw (frame : RawFrame) : DelayFrame :=
  { offset := frame.timestamp }

/-- `LogTriggerFrame` from `src/nixnet/types.py`. -/
structure LogTriggerFrame where
  timestamp : Nat
deriving DecidableEq

/-- `LogTriggerFrame.from_raw` from `src/nixnet/types.py`. -/
def LogTriggerFrame.from_raw (frame : RawFrame) : LogTriggerFrame :=
  { timestamp := frame.timestamp }

/-- `StartTriggerFrame` from `src/nixnet/types.py`. -/
structure StartTriggerFrame where
  timestamp : Nat
deriving DecidableEq

/-- `StartTriggerFrame.from_raw` from `src/nixnet/types.py`. -/
def StartTriggerFrame.from_raw (frame : RawFrame) : StartTriggerFrame :=
  { timestamp := frame.timestamp }

/-- The union of typed frames that `XnetFrame.from_raw` can produce. -/
inductive TypedFrame where
  | can (f : CanFrame)
  | canBusError (f : CanBusErrorFrame)
  | delay (f : DelayFrame)
  | logTrigger (f : LogTriggerFrame)
  | startTrigger (f : StartTriggerFrame)
deriving DecidableEq

/-- `XnetFrame.from_raw` from `src/nixnet/types.py`: dispatch on the type
tag; a tag absent from the table raises `NotImplementedError`. -/
def XnetFrame.from_raw (frame : RawFrame) : Except PyError TypedFrame :=
  match frame.type with
  | .canData => .ok (.can (CanFrame.from_raw frame))
  | .can20Data => .ok (.can (CanFrame.from_raw frame))
  | .canfdData => .ok (.can (CanFrame.from_raw frame))
  | .canfdbrsData => .ok (.can (CanFrame.from_raw frame))
  | .canRemote => .ok (.can (CanFrame.from_raw frame))
  | .canBusError => (CanBusErrorFrame.from_raw frame).map .canBusError
  | .specialDelay => .ok (.delay (DelayFrame.from_raw frame))
  | .specialLogTrigger => .ok (.logTrigger (LogTriggerFrame.from_raw frame))
  | .specialStartTrigger => .ok (.startTrigger (StartTriggerFrame.from_raw frame))
  | .other tag => .error (.notImplementedError (.other tag))

/-- Maximum payload length, from the Raw Frame Format's one-byte
`payload_len` field.

Modelled from the spec: `nixnet/_frames.py` is not under `src/`; the spec
schema gives a one-byte payload-length field and says oversized payloads
are a `PayloadTooLarge` error. -/
def maxFramePayload : Nat := 255

/-- Little-endian byte encoding of `n` in `width` bytes. -/
def bytesOfNat (width n : Nat) : List Nat :=
  (List.range width).map (fun i => n / 256 ^ i % 256)

/-- Wire byte for a frame type tag.

Modelled from the spec: the numeric tag values live in `nixnet/_cconsts.py`
which is not under `src/`; the exact values are irrelevant to the claims
settled here, only that each tag serializes to one byte. -/
def FrameType.tagByte : FrameType → Nat
  | .canData => 0x00
  | .canRemote => 0x01
  | .canBusError => 0x02
  | .can20Data => 0x08
  | .canfdData => 0x10
  | .canfdbrsData => 0x18
  | .specialDelay => 0x20
  | .specialLogTrigger => 0x21
  | .specialStartTrigger => 0x22
  | .other tag => tag % 256

/-- Zero padding bytes appended after the payload so each record ends on
the format's 8-byte boundary. -/
def padBytes (payloadLen : Nat) : Nat :=
  (8 - payloadLen % 8) % 8

/-- One-record serializer `_frames.serialize_frame`.

Modelled from the spec: `nixnet/_frames.py` is not under `src/`. Per the
spec, `encode_one` emits the fixed header (8-byte timestamp, 4-byte
identifier, then type, flags, info and payload-length bytes), the payload,
and padding to the record boundary, and fails with `PayloadTooLarge` when
the payload exceeds the format maximum. -/
def serialize_frame (f : RawFrame) : Except PyError (List Nat) :=
  if f.payload.length > maxFramePayload then .error .payloadTooLarge
  else
    .ok (bytesOfNat 8 f.timestamp ++ bytesOfNat 4 f.identifier ++
      [f.type.tagByte, f.flags % 256, f.info % 256, f.payload.length] ++
      f.payload ++ List.replicate (padBytes f.payload.length) 0)

/-- The byte string `OutFrames.write_raw` from `src/nixnet/_session/frames.py`
builds and hands to `write_bytes`: the join of the per-frame units produced
by `_frames.serialize_frame`, in input order (the `itertools.chain` over the
generator raises at the first failing frame, modelled by the `Except` bind). -/
def write_raw_bytes (raw_frames : List RawFrame) : Except PyError (List Nat) :=
  match raw_frames with
  | [] => .ok []
  | f :: rest => do
    let unit ← serialize_frame f
    let tail ← write_raw_bytes rest
    .ok (unit ++ tail)

/-- `Item` from `src/nixnet/_session/collection.py`. The index is an `Int`
because `Collection.__getitem__` passes the (possibly negative) Python key
through unchanged. -/
structure Item where
  handle : Nat
  index : Int
  name : String
deriving DecidableEq

/-- `Item.__eq__` from `src/nixnet/_session/collection.py`: items compare
by handle and index only; the name is informational. -/
def Item.eqPy (a b : Item) : Bool :=
  a.handle == b.handle && a.index == b.index

/-- `Collection` from `src/nixnet/_session/collection.py`, together with
the two driver queries it depends on: `num_in_list` models
`_props.get_session_num_in_list(handle)` (the live item count) and
`session_list` models `_props.get_session_list(handle)` (the name list,
cached on first use; in this single-threaded model the populated cache
equals the driver list). -/
structure Collection where
  handle : Nat
  num_in_list : Nat
  session_list : List String

/-- `Collection._list_cache` from `src/nixnet/_session/collection.py`. -/
def Collection.list_cache (c : Collection) : List String :=
  c.session_list

/-- `Collection.__len__` from `src/nixnet/_session/collection.py`. -/
def Collection.length (c : Collection) : Nat :=
  c.num_in_list

/-- A key passed to the collection API: a Python `int`, `str`, or any
other type. -/
inductive Key where
  | int (i : Int)
  | str (s : String)
  | other

/-- Python list subscript `l[i]`: non-negative indexes read directly,
negative indexes count from the end, anything else is an `IndexError`
(`none`). -/
def pyListGet (l : List String) (i : Int) : Option String :=
  if 0 ≤ i then l.get? i.toNat
  else if 0 ≤ i + l.length then l.get? (i + l.length).toNat
  else none

/-- `Collection.__iter__` from `src/nixnet/_session/collection.py`:
asserts the live count matches the cached name list length, then yields
one item per cached name in order. -/
def Collection.iterate (c : Collection) : Except PyError (List Item) :=
  if c.length ≠ c.list_cache.length then .error .assertionError
  else .ok (c.list_cache.enum.map (fun p => { handle := c.handle, index := (p.1 : Int), name := p.2 }))

/-- `Collection.__contains__` from `src/nixnet/_session/collection.py`. -/
def Collection.contains (c : Collection) (k : Key) : Except PyError Bool :=
  match k with
  | .int i => .ok (decide (0 ≤ i ∧ i < (c.list_cache.length : Int)))
  | .str s => .ok (c.list_cache.contains s)
  | .other => .error .typeError

/-- `Collection.__getitem__` from `src/nixnet/_session/collection.py`:
an integer key subscripts the cache (Python semantics, so negative keys
count from the end); a string key resolves to its first position in the
cache; any other key type is a `TypeError`. -/
def Collection.getItem (c : Collection) (k : Key) : Except PyError Item :=
  match k with
  | .int i =>
    match pyListGet c.list_cache i with
    | some name => .ok { handle := c.handle, index := i, name := name }
    | none => .error .indexError
  | .str s =>
    match c.list_cache.findIdx? (fun n => n == s) with
    | some idx => .ok { handle := c.handle, index := (idx : Int), name := s }
    | none => .error (.keyError s)
  | .other => .error .typeError

/-- `Collection.get` from `src/nixnet/_session/collection.py`: same
resolution as `__getitem__` but a lookup miss returns the default
(`none` models Python `None`); a malformed key still raises `TypeError`. -/
def Collection.get (c : Collection) (k : Key) (default : Option Item) :
    Except PyError (Option Item) :=
  match k with
  | .int i =>
    match pyListGet c.list_cache i with
    | some name => .ok (some { handle := c.handle, index := i, name := name })
    | none => .ok default
  | .str s =>
    match c.list_cache.findIdx? (fun n => n == s) with
    | some idx => .ok (some { handle := c.handle, index := (idx : Int), name := s })
    | none => .ok default
  | .other => .error .typeError

/-- C1 counterexample: decoding a CAN_BUS_ERROR raw frame with payload
`[1,1,3,3,4]` yields `bus_err = 1` (the byte at offset 1, reused from the
transceiver-error flag), not `bus_err = 3` as the claim states. -/
theorem bus_error_decode_counterexample :
    CanBusErrorFrame.from_raw ⟨0, 0, .canBusError, 0, 0, [1, 1, 3, 3, 4]⟩ =
      .ok ⟨0, 1, true, 1, 3, 4⟩ ∧
    CanBusErrorFrame.from_raw ⟨0, 0, .canBusError, 0, 0, [1, 1, 3, 3, 4]⟩ ≠
      .ok ⟨0, 1, true, 3, 3, 4⟩ := by
  decide

/-- C1 (amended): decoding a raw frame of type CAN_BUS_ERROR with 5-byte
payload `[1,1,3,3,4]` via `CanBusErrorFrame.from_raw` yields state = 1,
tcvr_err = true, bus_err = 1 (byte offset 1, the same byte as the
transceiver-error flag), tx_err_count = 3, rx_err_count = 4, with the
timestamp copied from the raw frame. -/
theorem bus_error_decode_example (ts ident flags info : Nat) :
    CanBusErrorFrame.from_raw ⟨ts, ident, .canBusError, flags, info, [1, 1, 3, 3, 4]⟩ =
      .ok ⟨ts, 1, true, 1, 3, 4⟩ :=
  rfl

/-- C2: for every `(id, extended)` whose identifier fits the mask for its
extended flag, converting `CanIdentifier id extended` to its raw form and
parsing it back with `CanIdentifier.from_raw` returns the original value. -/
theorem can_identifier_roundtrip (id : Nat) (ext : Bool)
    (h : id &&& (if ext then EXTENDED_FRAME_ID_MASK else FRAME_ID_MASK) = id) :
    ∃ raw, CanIdentifier.toInt ⟨id, ext⟩ = .ok raw ∧
      CanIdentifier.from_raw raw = ⟨id, ext⟩ := by
  have hflag : NX_FRAME_ID_CAN_IS_EXTENDED = 2 ^ 29 := rfl
  cases ext with
  | false =>
    simp only [Bool.false_eq_true, if_false] at h
    have hlt : id < 2 ^ 10 := by
      rw [show FRAME_ID_MASK = 2 ^ 10 - 1 from rfl,
        Nat.and_pow_two_sub_one_eq_mod] at h
      calc id = id % 2 ^ 10 := h.symm
        _ < 2 ^ 10 := Nat.mod_lt _ (by norm_num)
    refine ⟨id, ?_, ?_⟩
    · simp [CanIdentifier.toInt, h]
    · have hbit : id &&& NX_FRAME_ID_CAN_IS_EXTENDED = 0 := by
        rw [hflag, Nat.and_two_pow,
          Nat.testBit_lt_two_pow (lt_trans hlt (by norm_num))]
        rfl
      unfold CanIdentifier.from_raw
      rw [if_neg (by simp [hbit])]
      simp [h]
  | true =>
    simp only [if_pos] at h
    have hlt : id < 2 ^ 29 := by
      rw [show EXTENDED_FRAME_ID_MASK = 2 ^ 29 - 1 from rfl,
        Nat.and_pow_two_sub_one_eq_mod] at h
      calc id = id % 2 ^ 29 := h.symm
        _ < 2 ^ 29 := Nat.mod_lt _ (by norm_num)
    refine ⟨id ||| NX_FRAME_ID_CAN_IS_EXTENDED, ?_, ?_⟩
    · simp [CanIdentifier.toInt, h]
    · have hor : (id ||| NX_FRAME_ID_CAN_IS_EXTENDED) &&& NX_FRAME_ID_CAN_IS_EXTENDED =
          2 ^ 29 := by
        rw [hflag, Nat.and_distrib_right, Nat.and_two_pow,
          Nat.testBit_lt_two_pow hlt, Nat.and_self]
        rfl
      have hand : (id ||| NX_FRAME_ID_CAN_IS_EXTENDED) &&& EXTENDED_FRAME_ID_MASK = id := by
        rw [show EXTENDED_FRAME_ID_MASK = 2 ^ 29 - 1 from rfl, hflag,
          Nat.and_distrib_right, Nat.and_pow_two_sub_one_eq_mod,
          Nat.and_pow_two_sub_one_eq_mod, Nat.mod_eq_of_lt hlt, Nat.mod_self,
          Nat.or_zero]
      unfold CanIdentifier.from_raw
      rw [if_pos (by rw [hor]; norm_num)]
      simp [hand]

/-- C2 witness: the round trip evaluated at `(0x1234, extended := true)`. -/
theorem can_identifier_roundtrip_witness :
    (0x1234 : Nat) &&& (if true then EXTENDED_FRAME_ID_MASK else FRAME_ID_MASK) = 0x1234 ∧
    ∃ raw, CanIdentifier.toInt ⟨0x1234, true⟩ = .ok raw ∧
      CanIdentifier.from_raw raw = ⟨0x1234, true⟩ :=
  ⟨by decide, can_identifier_roundtrip 0x1234 true (by decide)⟩

/-- C3: converting a `CanIdentifier` to its raw form fails with the
undefined-frame-identifier error exactly when the identifier changes under
the width mask for its extended flag; in particular
`CanIdentifier 0x500 false` fails and no truncated value is returned. -/
theorem can_identifier_to_raw_error_iff (c : CanIdentifier) :
    (CanIdentifier.toInt c = .error .undefinedFrameId ↔
      c.identifier &&& (if c.extended then EXTENDED_FRAME_ID_MASK else FRAME_ID_MASK) ≠
        c.identifier) ∧
    CanIdentifier.toInt ⟨0x500, false⟩ = .error .undefinedFrameId := by
  refine ⟨?_, by decide⟩
  rcases c with ⟨id, ext⟩
  cases ext <;>
    simp only [CanIdentifier.toInt, Bool.false_eq_true, if_false, if_pos] <;>
    split <;>
    rename_i hne
  · exact iff_of_true rfl (fun e => hne e.symm)
  · exact iff_of_false (fun hc => Except.noConfusion hc)
      (fun e => e (not_not.mp hne).symm)
  · exact iff_of_true rfl (fun e => hne e.symm)
  · exact iff_of_false (fun hc => Except.noConfusion hc)
      (fun e => e (not_not.mp hne).symm)

/-- C4: `XnetFrame.from_raw` maps each of the nine known tags to exactly
one variant decoder (the five CAN data/remote/FD tags all to
`CanFrame.from_raw`) and raises the unsupported-frame-type error for every
raw frame whose tag is outside the nine. -/
theorem xnet_frame_dispatch (ts ident flags info : Nat) (payload : List Nat) :
    XnetFrame.from_raw ⟨ts, ident, .canData, flags, info, payload⟩ =
      .ok (.can (CanFrame.from_raw ⟨ts, ident, .canData, flags, info, payload⟩)) ∧
    XnetFrame.from_raw ⟨ts, ident, .can20Data, flags, info, payload⟩ =
      .ok (.can (CanFrame.from_raw ⟨ts, ident, .can20Data, flags, info, payload⟩)) ∧
    XnetFrame.from_raw ⟨ts, ident, .canfdData, flags, info, payload⟩ =
      .ok (.can (CanFrame.from_raw ⟨ts, ident, .canfdData, flags, info, payload⟩)) ∧
    XnetFrame.from_raw ⟨ts, ident, .canfdbrsData, flags, info, payload⟩ =
      .ok (.can (CanFrame.from_raw ⟨ts, ident, .canfdbrsData, flags, info, payload⟩)) ∧
    XnetFrame.from_raw ⟨ts, ident, .canRemote, flags, info, payload⟩ =
      .ok (.can (CanFrame.from_raw ⟨ts, ident, .canRemote, flags, info, payload⟩)) ∧
    XnetFrame.from_raw ⟨ts, ident, .canBusError, flags, info, payload⟩ =
      (CanBusErrorFrame.from_raw ⟨ts, ident, .canBusError, flags, info, payload⟩).map
        TypedFrame.canBusError ∧
    XnetFrame.from_raw ⟨ts, ident, .specialDelay, flags, info, payload⟩ =
      .ok (.delay (DelayFrame.from_raw ⟨ts, ident, .specialDelay, flags, info, payload⟩)) ∧
    XnetFrame.from_raw ⟨ts, ident, .specialLogTrigger, flags, info, payload⟩ =
      .ok (.logTrigger
        (LogTriggerFrame.from_raw ⟨ts, ident, .specialLogTrigger, flags, info, payload⟩)) ∧
    XnetFrame.from_raw ⟨ts, ident, .specialStartTrigger, flags, info, payload⟩ =
      .ok (.startTrigger
        (StartTriggerFrame.from_raw ⟨ts, ident, .specialStartTrigger, flags, info, payload⟩)) ∧
    ∀ tag, XnetFrame.from_raw ⟨ts, ident, .other tag, flags, info, payload⟩ =
      .error (.notImplementedError (.other tag)) :=
  ⟨rfl, rfl, rfl, rfl, rfl, rfl, rfl, rfl, rfl, fun _ => rfl⟩

/-- C5: whenever the live item count diverges from the cached name-list
length, starting iteration raises the consistency assertion instead of
yielding items. -/
theorem iterate_cache_consistency (c : Collection)
    (h : c.length ≠ c.list_cache.length) :
    c.iterate = .error .assertionError := by
  unfold Collection.iterate
  rw [if_pos h]

/-- C5 witness: a collection reporting 2 live items over a 1-name cache. -/
theorem iterate_cache_consistency_witness :
    Collection.length ⟨0, 2, ["a"]⟩ ≠ (Collection.list_cache ⟨0, 2, ["a"]⟩).length ∧
    Collection.iterate ⟨0, 2, ["a"]⟩ = .error .assertionError :=
  ⟨by decide, iterate_cache_consistency ⟨0, 2, ["a"]⟩ (by decide)⟩

/-- C6: over the cached name list `["a","b","c"]`, lookup by index 1 and
by name "b" agree up to item identity (same handle, index 1); containment
of 3 and of "z" is false; `get "z" none` returns the default without
raising; and a key that is neither an integer nor a string raises
`TypeError` from every lookup entry point, `get` included. -/
theorem collection_indexing_example (h cnt : Nat) :
    Collection.getItem ⟨h, cnt, ["a", "b", "c"]⟩ (.int 1) = .ok ⟨h, 1, "b"⟩ ∧
    Collection.getItem ⟨h, cnt, ["a", "b", "c"]⟩ (.str "b") = .ok ⟨h, 1, "b"⟩ ∧
    Item.eqPy ⟨h, 1, "b"⟩ ⟨h, 1, "b"⟩ = true ∧
    Collection.contains ⟨h, cnt, ["a", "b", "c"]⟩ (.int 3) = .ok false ∧
    Collection.contains ⟨h, cnt, ["a", "b", "c"]⟩ (.str "z") = .ok false ∧
    Collection.get ⟨h, cnt, ["a", "b", "c"]⟩ (.str "z") none = .ok none ∧
    (∀ d, Collection.get ⟨h, cnt, ["a", "b", "c"]⟩ .other d = .error .typeError) ∧
    Collection.getItem ⟨h, cnt, ["a", "b", "c"]⟩ .other = .error .typeError := by
  refine ⟨rfl, rfl, ?_, rfl, rfl, rfl, fun d => rfl, rfl⟩
  simp [Item.eqPy]

/-- C7: the byte string `write_raw` hands to `write_bytes` is the
concatenation, in input order, of the per-frame serializations. -/
theorem write_raw_concatenation (frames : List RawFrame) (units : List (List Nat))
    (h : List.Forall₂ (fun f u => serialize_frame f = .ok u) frames units) :
    write_raw_bytes frames = .ok units.flatten := by
  induction h with
  | nil => rfl
  | cons hfu _ ih =>
    simp only [write_raw_bytes, hfu, ih, List.flatten_cons]
    rfl

/-- C7 witness: two concrete empty-payload frames serialize and join. -/
theorem write_raw_concatenation_witness :
    List.Forall₂ (fun f u => serialize_frame f = .ok u)
      [⟨0, 0, .canData, 0, 0, []⟩, ⟨1, 2, .canRemote, 3, 4, []⟩]
      [[0, 0, 0, 0, 0, 0, 0, 0, 0, 0, 0, 0, 0, 0, 0, 0],
       [1, 0, 0, 0, 0, 0, 0, 0, 2, 0, 0, 0, 1, 3, 4, 0]] ∧
    write_raw_bytes [⟨0, 0, .canData, 0, 0, []⟩, ⟨1, 2, .canRemote, 3, 4, []⟩] =
      .ok ([[0, 0, 0, 0, 0, 0, 0, 0, 0, 0, 0, 0, 0, 0, 0, 0],
            [1, 0, 0, 0, 0, 0, 0, 0, 2, 0, 0, 0, 1, 3, 4, 0]] : List (List Nat)).flatten := by
  have h : List.Forall₂ (fun f u => serialize_frame f = .ok u)
      [⟨0, 0, .canData, 0, 0, []⟩, ⟨1, 2, .canRemote, 3, 4, []⟩]
      [[0, 0, 0, 0, 0, 0, 0, 0, 0, 0, 0, 0, 0, 0, 0, 0],
       [1, 0, 0, 0, 0, 0, 0, 0, 2, 0, 0, 0, 1, 3, 4, 0]] :=
    .cons (by decide) (.cons (by decide) .nil)
  exact ⟨h, write_raw_concatenation _ _ h⟩

/-- C8: `CanFrame.init` sets `echo` to false regardless of its arguments,
and `CanFrame.from_raw` sets `echo` exactly when the transmit-echo flag
bit is set in the raw frame's flags. -/
theorem can_frame_echo (i : CanIdArg) (t : FrameType) (p : List Nat) (f : RawFrame) :
    (CanFrame.init i t p).echo = false ∧
    ((CanFrame.from_raw f).echo = true ↔
      f.flags &&& NX_FRAME_FLAGS_TRANSMIT_ECHO ≠ 0) := by
  refine ⟨rfl, ?_⟩
  simp [CanFrame.from_raw, CanFrame.init]

/-- C9: `to_raw` emits payload `[state, tcvr flag, bus_err, tx, rx]` with
`bus_err` at offset 2, while `from_raw` reads `bus_err` from offset 1, so
the round trip preserves every field except `bus_err`, which becomes 1
when `tcvr_err` is set and 0 otherwise. -/
theorem bus_error_roundtrip (f : CanBusErrorFrame) (raw : RawFrame)
    (h : f.to_raw = .ok raw) :
    raw.payload = [f.state, if f.tcvr_err then 1 else 0, f.bus_err,
      f.tx_err_count, f.rx_err_count] ∧
    CanBusErrorFrame.from_raw raw =
      .ok { f with bus_err := if f.tcvr_err then 1 else 0 } := by
  unfold CanBusErrorFrame.to_raw at h
  split at h
  · exact Except.noConfusion h
  · rename_i payload heq
    injection h with h
    subst h
    generalize hl : [f.state, if f.tcvr_err then 1 else 0, f.bus_err,
      f.tx_err_count, f.rx_err_count] = l at heq
    unfold pyBytes at heq
    split at heq
    · injection heq with heq
      subst heq
      subst hl
      refine ⟨rfl, ?_⟩
      cases hb : f.tcvr_err <;>
        simp only [CanBusErrorFrame.from_raw, indexbytes, hb] <;> rfl
    · exact Except.noConfusion heq

/-- C9 witness: the round trip evaluated at a concrete bus-error frame
with `tcvr_err` set and `bus_err = 6`. -/
theorem bus_error_roundtrip_witness :
    (⟨5, 0, FrameType.canBusError, 0, 0, [2, 1, 6, 7, 8]⟩ : RawFrame).payload =
      [2, 1, 6, 7, 8] ∧
    CanBusErrorFrame.from_raw ⟨5, 0, .canBusError, 0, 0, [2, 1, 6, 7, 8]⟩ =
      .ok ⟨5, 2, true, 1, 7, 8⟩ :=
  bus_error_roundtrip ⟨5, 2, true, 6, 7, 8⟩
    ⟨5, 0, .canBusError, 0, 0, [2, 1, 6, 7, 8]⟩ rfl

/-- C10: for a negative key `k` with `-n ≤ k ≤ -1` over a cache of length
`n`, containment reports false, yet `__getitem__` and `get` succeed and
return an item carrying the negative index `k` (Python negative indexing
into the cache); only `k < -n` raises the out-of-range error. -/
theorem collection_negative_index (c : Collection) (k : Int) :
    (-(c.list_cache.length : Int) ≤ k → k ≤ -1 →
      c.contains (.int k) = .ok false ∧
      ∃ name, c.list_cache.get? (k + c.list_cache.length).toNat = some name ∧
        c.getItem (.int k) = .ok ⟨c.handle, k, name⟩ ∧
        c.get (.int k) none = .ok (some ⟨c.handle, k, name⟩)) ∧
    (k < -(c.list_cache.length : Int) → c.getItem (.int k) = .error .indexError) := by
  constructor
  · intro hge hle
    have hk0 : ¬ (0 ≤ k) := by omega
    have hlen : 0 ≤ k + (c.list_cache.length : Int) := by omega
    have hident : (k + (c.list_cache.length : Int)).toNat < c.list_cache.length := by
      omega
    refine ⟨?_, c.list_cache.get ⟨_, hident⟩, List.get?_eq_get hident, ?_, ?_⟩
    · simp only [Collection.contains]
      rw [decide_eq_false (by omega : ¬ (0 ≤ k ∧ k < (c.list_cache.length : Int)))]
    · simp only [Collection.getItem, pyListGet]
      rw [if_neg hk0, if_pos hlen, List.get?_eq_get hident]
    · simp only [Collection.get, pyListGet]
      rw [if_neg hk0, if_pos hlen, List.get?_eq_get hident]
  · intro hlt
    simp only [Collection.getItem, pyListGet]
    rw [if_neg (by omega : ¬ (0 ≤ k)),
      if_neg (by omega : ¬ (0 ≤ k + (c.list_cache.length : Int)))]

/-- C10 witness: the cache `["a","b","c"]` with keys `-2` (succeeds with
index `-2`, name "b") and `-5` (raises). -/
theorem collection_negative_index_witness :
    (Collection.contains ⟨7, 3, ["a", "b", "c"]⟩ (.int (-2)) = .ok false ∧
      ∃ name, (Collection.list_cache ⟨7, 3, ["a", "b", "c"]⟩).get?
          ((-2) + ((Collection.list_cache ⟨7, 3, ["a", "b", "c"]⟩).length : Int)).toNat =
            some name ∧
        Collection.getItem ⟨7, 3, ["a", "b", "c"]⟩ (.int (-2)) = .ok ⟨7, -2, name⟩ ∧
        Collection.get ⟨7, 3, ["a", "b", "c"]⟩ (.int (-2)) none =
          .ok (some ⟨7, -2, name⟩)) ∧
    Collection.getItem ⟨7, 3, ["a", "b", "c"]⟩ (.int (-5)) = .error .indexError :=
  ⟨(collection_negative_index ⟨7, 3, ["a", "b", "c"]⟩ (-2)).1 (by decide) (by decide),
   (collection_negative_index ⟨7, 3, ["a", "b", "c"]⟩ (-5)).2 (by decide)⟩

end Nixnet
